import Mathlib

/-!
Shallow embedding of `src/vtok_agent/src/enclave.rs` from aws-nitro-enclaves-acm:
the `P11neEnclave` lifecycle manager (bootstrap, boot-readiness polling, the
retrying RPC client, and teardown on drop).  External collaborators (the
nitro-cli launcher `ne::run_enclave`, the vsock transport, the constants of
`defs.rs`, and `util::interruptible_sleep`) are modelled as explicit
environment parameters; time is measured in milliseconds; everything else
follows the Rust source line by line.
-/

namespace VTokAgent

/-- Application-level payload of an accepted API response (opaque to this core). -/
abbrev ApiOk := Nat

/-- Application-level payload of a rejected API response (opaque to this core). -/
abbrev ApiErr := Nat

/-- One `schema::ApiResponse` value.  The `Ok(Ok(_))` pattern in `wait_boot` and
the `res.is_ok()` call in `retry_rpc` destructure it as a Rust `Result`:
accepted responses are `Except.ok`, rejected responses are `Except.error`. -/
abbrev ApiResponse := Except ApiErr ApiOk

/-- Rust `Result::is_ok`, the application-level outcome flag of a response. -/
def Except.is_ok : Except ApiErr ApiOk → Bool
  | Except.ok _ => true
  | Except.error _ => false

instance {ε α : Type} [DecidableEq ε] [DecidableEq α] : DecidableEq (Except ε α) :=
  fun a b =>
    match a, b with
    | Except.ok x, Except.ok y =>
        if h : x = y then isTrue (by rw [h]) else isFalse (by simp [h])
    | Except.ok _, Except.error _ => isFalse (by simp)
    | Except.error _, Except.ok _ => isFalse (by simp)
    | Except.error x, Except.error y =>
        if h : x = y then isTrue (by rw [h]) else isFalse (by simp [h])

/-- The error enum of `enclave.rs`; collaborator error payloads are opaque. -/
inductive Error
  | NitroCliError (e : Nat)
  | P11KitSetupError (e : Nat)
  | RpcConnectError (e : Nat)
  | RpcTransportError (e : Nat)
  | SystemdExecError (e : Nat)
  | VsockProxyError (code : Option Int)
deriving DecidableEq, Repr

/-- Outcome of the collaborator steps inside one `P11neEnclave::rpc` call:
connecting to the vsock endpoint, sending the request, receiving the response. -/
inductive RpcStep
  | connectFail (e : Nat)
  | sendFail (e : Nat)
  | recvFail (e : Nat)
  | recvOk (r : ApiResponse)
deriving DecidableEq, Repr

/-- `P11neEnclave::rpc`: a connect failure maps to `RpcConnectError`, a
send/receive failure maps to `RpcTransportError`, and a received response is
returned as `Ok`. -/
def rpcCall : RpcStep → Except Error ApiResponse
  | RpcStep.connectFail e => Except.error (Error.RpcConnectError e)
  | RpcStep.sendFail e => Except.error (Error.RpcTransportError e)
  | RpcStep.recvFail e => Except.error (Error.RpcTransportError e)
  | RpcStep.recvOk r => Except.ok r

/-- The `P11neEnclave` struct: `boot_timeout` is kept in milliseconds. -/
structure P11neEnclave where
  cid : Nat
  pid : Int
  boot_timeout : Nat
  rpc_port : Nat
  attestation_retry_count : Nat
deriving DecidableEq, Repr

/-- Why a run of `retry_rpc` returned. -/
inductive ExitReason
  | appSuccess
  | exhausted
  | interrupted
  | transportError
deriving DecidableEq, Repr

/-- Observable outcome of a `retry_rpc` run: the returned value, the index of
the last attempt made (attempts are numbered from 1, as `count` is in the
source), every sleep duration passed to `interruptible_sleep`, in order, and
the reason the loop returned. -/
structure RetryOut where
  result : Except Error ApiResponse
  attempts : Nat
  sleeps : List Nat
  exit : ExitReason
deriving DecidableEq, Repr

/-- The body of `P11neEnclave::retry_rpc`, with `count` the current attempt
number.  `env k` is the outcome of the k-th call to `rpc`, `intr k` tells
whether the sleep after attempt k is cut short by `SleepError::UserExit`.
`fuel` bounds the number of iterations modelled; the source loop is unbounded
(`none` means the loop was still running after `fuel` iterations). -/
def retryRpcAux (env : Nat → RpcStep) (intr : Nat → Bool) (retryCount : Nat) :
    Nat → Nat → Option RetryOut
  | _, 0 => none
  | count, fuel + 1 =>
    match rpcCall (env count) with
    | Except.error e => some ⟨Except.error e, count, [], ExitReason.transportError⟩
    | Except.ok res =>
      if Except.is_ok res then
        some ⟨Except.ok res, count, [], ExitReason.appSuccess⟩
      else if count = retryCount then
        some ⟨Except.ok res, count, [], ExitReason.exhausted⟩
      else if intr count then
        some ⟨Except.ok res, count, [(1 <<< (count - 1)) * 100], ExitReason.interrupted⟩
      else
        match retryRpcAux env intr retryCount (count + 1) fuel with
        | none => none
        | some out =>
          some ⟨out.result, out.attempts, (1 <<< (count - 1)) * 100 :: out.sleeps, out.exit⟩

/-- `P11neEnclave::retry_rpc`: the loop starts with `count = 1`. -/
def P11neEnclave.retry_rpc (self : P11neEnclave) (env : Nat → RpcStep)
    (intr : Nat → Bool) (fuel : Nat) : Option RetryOut :=
  retryRpcAux env intr self.attestation_retry_count 1 fuel

/-- Observable outcome of a `wait_boot` run: the returned boolean and the
instants (ms since entry) at which the polls happened. -/
structure BootOut where
  result : Bool
  pollTimes : List Nat
deriving DecidableEq, Repr

/-- The loop of `P11neEnclave::wait_boot`.  `env i` is the outcome of the i-th
`DescribeDevice` poll, `rpcDur i` how long that rpc call took, `intr i`
whether the 100ms poll sleep after poll i is cut short by a user exit.  The
loop runs while `now < limit` and declares success only on `Ok(Ok(_))`. -/
def wait_bootAux (env : Nat → RpcStep) (rpcDur : Nat → Nat) (intr : Nat → Bool)
    (limit now i : Nat) : BootOut :=
  if h : now < limit then
    match rpcCall (env i) with
    | Except.ok (Except.ok _) => ⟨true, [now]⟩
    | _ =>
      if intr i then ⟨false, [now]⟩
      else
        let out := wait_bootAux env rpcDur intr limit (now + rpcDur i + 100) (i + 1)
        ⟨out.result, now :: out.pollTimes⟩
  else ⟨false, []⟩
termination_by limit - now
decreasing_by omega

/-- The request enum of the API schema, as used by `enclave.rs`; token and
envelope-key payloads are opaque. -/
inductive ApiRequest
  | DescribeDevice
  | AddToken (token : Nat)
  | RefreshToken (label : String) (pin : String) (envelope_key : Nat)
  | RemoveToken (label : String) (pin : String)
  | UpdateToken (label : String) (pin : String) (token : Nat)
  | DescribeToken (label : String) (pin : String)
deriving DecidableEq, Repr

/-- Environment seen by the public operations: the outcome of the k-th `rpc`
call issued for a given request. -/
abbrev RpcEnv := ApiRequest → Nat → RpcStep

/-- `P11neEnclave::wait_boot`: entered at time 0, `limit = now + boot_timeout`. -/
def P11neEnclave.wait_boot (self : P11neEnclave) (env : RpcEnv) (rpcDur : Nat → Nat)
    (intr : Nat → Bool) : BootOut :=
  wait_bootAux (fun i => env ApiRequest.DescribeDevice i) rpcDur intr self.boot_timeout 0 0

/-- Observable outcome of one public token operation: the returned value, how
many `rpc` calls it made, and the sleeps it performed. -/
structure OpOut where
  result : Except Error ApiResponse
  rpc_calls : Nat
  sleeps : List Nat
deriving DecidableEq, Repr

/-- Forget the exit reason of a retry run. -/
def RetryOut.toOp (o : RetryOut) : OpOut := ⟨o.result, o.attempts, o.sleeps⟩

/-- `P11neEnclave::add_token`: delegates to `retry_rpc`. -/
def P11neEnclave.add_token (self : P11neEnclave) (env : RpcEnv) (intr : Nat → Bool)
    (fuel : Nat) (token : Nat) : Option OpOut :=
  (self.retry_rpc (env (ApiRequest.AddToken token)) intr fuel).map RetryOut.toOp

/-- `P11neEnclave::refresh_token`: delegates to `retry_rpc`. -/
def P11neEnclave.refresh_token (self : P11neEnclave) (env : RpcEnv) (intr : Nat → Bool)
    (fuel : Nat) (label pin : String) (envelope_key : Nat) : Option OpOut :=
  (self.retry_rpc (env (ApiRequest.RefreshToken label pin envelope_key)) intr fuel).map
    RetryOut.toOp

/-- `P11neEnclave::remove_token`: a single `rpc` call, no retry. -/
def P11neEnclave.remove_token (self : P11neEnclave) (env : RpcEnv)
    (label pin : String) : OpOut :=
  ⟨rpcCall (env (ApiRequest.RemoveToken label pin) 1), 1, []⟩

/-- `P11neEnclave::update_token`: delegates to `retry_rpc`. -/
def P11neEnclave.update_token (self : P11neEnclave) (env : RpcEnv) (intr : Nat → Bool)
    (fuel : Nat) (label pin : String) (token : Nat) : Option OpOut :=
  (self.retry_rpc (env (ApiRequest.UpdateToken label pin token)) intr fuel).map RetryOut.toOp

/-- `P11neEnclave::describe_token`: a single `rpc` call, no retry. -/
def P11neEnclave.describe_token (self : P11neEnclave) (env : RpcEnv)
    (label pin : String) : OpOut :=
  ⟨rpcCall (env (ApiRequest.DescribeToken label pin) 1), 1, []⟩

/-- Modelled from the spec: the constants of `defs.rs` are not among the given
sources; the spec describes them only as fixed defaults (a default image path,
a fixed module name, and default port/timeout/retry values), so they are kept
as opaque parameters here. -/
structure Defs where
  DEFAULT_EIF_PATH : String
  P11_MODULE_NAME : String
  DEFAULT_P11KIT_PORT : Nat
  DEFAULT_ENCLAVE_BOOT_TIMEOUT_MS : Nat
  DEFAULT_RPC_PORT : Nat
  DEFAULT_ATTESTATION_RETRY_COUNT : Nat
deriving DecidableEq, Repr

/-- The launcher's answer: `ne::run_enclave` yields the enclave cid and the
process id (numeric, per the spec's launcher contract). -/
structure EnclaveRunInfo where
  enclave_cid : Nat
  process_id : Nat
deriving DecidableEq, Repr

/-- `config::Enclave`, as read by `P11neEnclave::new`: every field the source
accesses, optionals as `Option`. -/
structure EnclaveConfig where
  image_path : Option String
  cpu_count : Nat
  memory_mib : Nat
  p11kit_port : Option Nat
  rpc_port : Option Nat
  boot_timeout_ms : Option Nat
  attestation_retry_count : Option Nat
deriving DecidableEq, Repr

/-- Environment of `P11neEnclave::new`: the launcher call, the config-file
write (path, contents ↦ bytes written or io error), and the
`systemctl restart` invocation (args ↦ exec error, or (success, exit code)). -/
structure BootstrapEnv where
  run_enclave : String → Nat → Nat → Except Nat EnclaveRunInfo
  file_write : String → String → Except Nat Nat
  systemctl : List String → Except Nat (Bool × Option Int)

/-- The `OpenOptions` flags and path used to open the p11-kit module file. -/
structure OpenSpec where
  write : Bool
  create : Bool
  truncate : Bool
  path : String
deriving DecidableEq, Repr

/-- The fixed p11-kit module file path written and removed by the agent. -/
def modulePath (defs : Defs) : String :=
  "/etc/pkcs11/modules/" ++ defs.P11_MODULE_NAME ++ ".module"

/-- The exact string `new` writes into the module file. -/
def moduleContents (defs : Defs) (cid bridgePort : Nat) : String :=
  "remote:vsock:cid=" ++ toString cid ++ ";port=" ++ toString bridgePort ++
    "\nmodule:" ++ defs.P11_MODULE_NAME ++ "\n"

/-- Rust `as u32` on a numeric value. -/
def as_u32 (n : Nat) : Nat := n % 2 ^ 32

/-- Rust `as i32` on a numeric value. -/
def as_i32 (n : Nat) : Int :=
  if n % 2 ^ 32 < 2 ^ 31 then Int.ofNat (n % 2 ^ 32) else Int.ofNat (n % 2 ^ 32) - 2 ^ 32

/-- Observable outcome of `P11neEnclave::new`: the arguments given to the
launcher, the file write performed (if reached), the systemctl invocation (if
reached), and the constructed handle or error. -/
structure NewTrace where
  run_enclave_args : String × Nat × Nat
  file_write_call : Option (OpenSpec × String)
  systemctl_args : Option (List String)
  result : Except Error P11neEnclave
deriving DecidableEq, Repr

/-- `P11neEnclave::new`, step by step: launch (default image path if none
configured), write the module file (write/create/truncate), restart the vsock
proxy, then build the handle with every unset optional falling back to its
`defs` default. -/
def P11neEnclave.new (defs : Defs) (env : BootstrapEnv) (cfg : EnclaveConfig) : NewTrace :=
  let image := cfg.image_path.getD defs.DEFAULT_EIF_PATH
  let eargs := (image, cfg.cpu_count, cfg.memory_mib)
  match env.run_enclave image cfg.cpu_count cfg.memory_mib with
  | Except.error e => ⟨eargs, none, none, Except.error (Error.NitroCliError e)⟩
  | Except.ok eri =>
    let ospec : OpenSpec := ⟨true, true, true, modulePath defs⟩
    let contents :=
      moduleContents defs eri.enclave_cid (cfg.p11kit_port.getD defs.DEFAULT_P11KIT_PORT)
    match env.file_write (modulePath defs) contents with
    | Except.error e =>
      ⟨eargs, some (ospec, contents), none, Except.error (Error.P11KitSetupError e)⟩
    | Except.ok _ =>
      let sargs := ["restart", "nitro-enclaves-vsock-proxy"]
      match env.systemctl sargs with
      | Except.error e =>
        ⟨eargs, some (ospec, contents), some sargs, Except.error (Error.SystemdExecError e)⟩
      | Except.ok (success, code) =>
        if success then
          ⟨eargs, some (ospec, contents), some sargs, Except.ok
            ⟨as_u32 eri.enclave_cid, as_i32 eri.process_id,
              cfg.boot_timeout_ms.getD defs.DEFAULT_ENCLAVE_BOOT_TIMEOUT_MS,
              cfg.rpc_port.getD defs.DEFAULT_RPC_PORT,
              cfg.attestation_retry_count.getD defs.DEFAULT_ATTESTATION_RETRY_COUNT⟩⟩
        else
          ⟨eargs, some (ospec, contents), some sargs,
            Except.error (Error.VsockProxyError code)⟩

/-- The signal sent by the drop handler. -/
inductive Signal
  | SIGTERM
deriving DecidableEq, Repr

/-- Environment of the drop handler: the outcome of `signal::kill` and of
`std::fs::remove_file`. -/
structure DropEnv where
  kill_res : Except Nat Unit
  remove_file_res : Except Nat Unit

/-- Observable outcome of `Drop::drop`: every signal sent, every file-deletion
attempted, and how many warnings were logged.  The function is total: no
failure escapes it. -/
structure DropTrace where
  kills : List (Int × Signal)
  removes : List String
  warnings : Nat
deriving DecidableEq, Repr

/-- `impl Drop for P11neEnclave`: send SIGTERM to the pid, swallowing any
failure with `unwrap_or_default`, then remove the module file, turning any
failure into a logged warning with `unwrap_or_else`. -/
def P11neEnclave.drop (defs : Defs) (self : P11neEnclave) (env : DropEnv) : DropTrace :=
  let afterKill : DropTrace := ⟨[(self.pid, Signal.SIGTERM)], [], 0⟩
  let afterKill : DropTrace :=
    match env.kill_res with
    | Except.ok _ => afterKill
    | Except.error _ => afterKill
  let afterRemove : DropTrace :=
    ⟨afterKill.kills, afterKill.removes ++ [modulePath defs], afterKill.warnings⟩
  match env.remove_file_res with
  | Except.ok _ => afterRemove
  | Except.error _ => ⟨afterRemove.kills, afterRemove.removes, afterRemove.warnings + 1⟩

/-- Attempt `j` was made, received a response, and that response was an
application-level rejection. -/
def RejectedAt (env : Nat → RpcStep) (j : Nat) : Prop :=
  ∃ b, rpcCall (env j) = Except.ok b ∧ Except.is_ok b = false

lemma sleep_shift (k : Nat) : (1 <<< k) * 100 = 100 * 2 ^ k := by
  rw [Nat.shiftLeft_eq, Nat.one_mul, Nat.mul_comm]

lemma retryRpcAux_invariant (env : Nat → RpcStep) (intr : Nat → Bool) (N : Nat) :
    ∀ fuel count out, 1 ≤ count → retryRpcAux env intr N count fuel = some out →
      count ≤ out.attempts ∧
      (∀ j, count ≤ j → j < out.attempts → RejectedAt env j ∧ intr j = false ∧ j ≠ N) ∧
      (∀ i, (h : i < out.sleeps.length) → out.sleeps.get ⟨i, h⟩ = 100 * 2 ^ (count - 1 + i)) ∧
      (out.exit = ExitReason.transportError →
        out.sleeps.length = out.attempts - count ∧
        ∃ e, rpcCall (env out.attempts) = Except.error e ∧ out.result = Except.error e) ∧
      (out.exit = ExitReason.appSuccess →
        out.sleeps.length = out.attempts - count ∧
        ∃ a, rpcCall (env out.attempts) = Except.ok a ∧ Except.is_ok a = true ∧
          out.result = Except.ok a) ∧
      (out.exit = ExitReason.exhausted →
        out.sleeps.length = out.attempts - count ∧ out.attempts = N ∧
        ∃ a, rpcCall (env out.attempts) = Except.ok a ∧ Except.is_ok a = false ∧
          out.result = Except.ok a) ∧
      (out.exit = ExitReason.interrupted →
        out.sleeps.length = out.attempts - count + 1 ∧ out.attempts ≠ N ∧
        intr out.attempts = true ∧
        ∃ a, rpcCall (env out.attempts) = Except.ok a ∧ Except.is_ok a = false ∧
          out.result = Except.ok a) := by
  intro fuel
  induction fuel with
  | zero =>
    intro count out hc h
    simp [retryRpcAux] at h
  | succ fuel ih =>
    intro count out hc h
    rw [retryRpcAux] at h
    cases hcall : rpcCall (env count) with
    | error e =>
      rw [hcall] at h
      injection h with h
      subst h
      refine ⟨?_, ?_, ?_, ?_, ?_, ?_, ?_⟩ <;> dsimp only
      · exact le_refl _
      · intro j hj hj'; omega
      · intro i hi; simp at hi
      · intro hx; exact ⟨by simp, e, hcall, rfl⟩
      · intro hx; simp at hx
      · intro hx; simp at hx
      · intro hx; simp at hx
    | ok res =>
      rw [hcall] at h
      simp only at h
      by_cases hok : Except.is_ok res
      · rw [if_pos hok] at h
        injection h with h
        subst h
        refine ⟨?_, ?_, ?_, ?_, ?_, ?_, ?_⟩ <;> dsimp only
        · exact le_refl _
        · intro j hj hj'; omega
        · intro i hi; simp at hi
        · intro hx; simp at hx
        · intro hx; exact ⟨by simp, res, hcall, hok, rfl⟩
        · intro hx; simp at hx
        · intro hx; simp at hx
      · rw [if_neg hok] at h
        have hok' : Except.is_ok res = false := by simpa using hok
        by_cases hN : count = N
        · rw [if_pos hN] at h
          injection h with h
          subst h
          refine ⟨?_, ?_, ?_, ?_, ?_, ?_, ?_⟩ <;> dsimp only
          · exact le_refl _
          · intro j hj hj'; omega
          · intro i hi; simp at hi
          · intro hx; simp at hx
          · intro hx; simp at hx
          · intro hx; exact ⟨by simp, hN, res, hcall, hok', rfl⟩
          · intro hx; simp at hx
        · rw [if_neg hN] at h
          by_cases hintr : intr count
          · rw [if_pos hintr] at h
            injection h with h
            subst h
            refine ⟨?_, ?_, ?_, ?_, ?_, ?_, ?_⟩ <;> dsimp only
            · exact le_refl _
            · intro j hj hj'; omega
            · intro i hi
              simp only [List.length_singleton] at hi
              have hi0 : i = 0 := by omega
              subst hi0
              simpa [List.get] using sleep_shift (count - 1)
            · intro hx; simp at hx
            · intro hx; simp at hx
            · intro hx; simp at hx
            · intro hx; exact ⟨by simp, hN, hintr, res, hcall, hok', rfl⟩
          · rw [if_neg hintr] at h
            have hintr' : intr count = false := by simpa using hintr
            cases hrec : retryRpcAux env intr N (count + 1) fuel with
            | none => rw [hrec] at h; simp at h
            | some out₀ =>
              rw [hrec] at h
              simp only at h
              injection h with h
              subst h
              obtain ⟨iha, ihr, ihs, iht, ihok, ihex, ihintr⟩ :=
                ih (count + 1) out₀ (by omega) hrec
              refine ⟨?_, ?_, ?_, ?_, ?_, ?_, ?_⟩ <;> dsimp only
              · omega
              · intro j hj hj'
                rcases Nat.eq_or_lt_of_le hj with hje | hjl
                · subst hje
                  exact ⟨⟨res, hcall, hok'⟩, hintr', hN⟩
                · exact ihr j hjl hj'
              · intro i hi
                simp only [List.length_cons] at hi
                cases i with
                | zero =>
                  simpa [List.get] using sleep_shift (count - 1)
                | succ i' =>
                  simp only [List.get]
                  have hg := ihs i' (by omega)
                  rw [hg]
                  have hexp : count + 1 - 1 + i' = count - 1 + (i' + 1) := by omega
                  rw [hexp]
              · intro hx
                obtain ⟨hl, he⟩ := iht hx
                exact ⟨by simp only [List.length_cons]; omega, he⟩
              · intro hx
                obtain ⟨hl, he⟩ := ihok hx
                exact ⟨by simp only [List.length_cons]; omega, he⟩
              · intro hx
                obtain ⟨hl, hA, he⟩ := ihex hx
                exact ⟨by simp only [List.length_cons]; omega, hA, he⟩
              · intro hx
                obtain ⟨hl, hA, hI, he⟩ := ihintr hx
                exact ⟨by simp only [List.length_cons]; omega, hA, hI, he⟩

lemma retryRpcAux_terminates (env : Nat → RpcStep) (intr : Nat → Bool) (N : Nat) :
    ∀ fuel count, 1 ≤ count → count ≤ N → N + 1 - count ≤ fuel →
      ∃ out, retryRpcAux env intr N count fuel = some out ∧ out.attempts ≤ N := by
  intro fuel
  induction fuel with
  | zero => intro count hc hcN hf; omega
  | succ fuel ih =>
    intro count hc hcN hf
    rw [retryRpcAux]
    cases hcall : rpcCall (env count) with
    | error e => exact ⟨_, rfl, hcN⟩
    | ok res =>
      simp only
      by_cases hok : Except.is_ok res
      · rw [if_pos hok]; exact ⟨_, rfl, hcN⟩
      · rw [if_neg hok]
        by_cases hN : count = N
        · rw [if_pos hN]; exact ⟨_, rfl, hcN⟩
        · rw [if_neg hN]
          by_cases hintr : intr count
          · rw [if_pos hintr]; exact ⟨_, rfl, hcN⟩
          · rw [if_neg hintr]
            obtain ⟨out₀, hrec, hle⟩ := ih (count + 1) (by omega) (by omega) (by omega)
            rw [hrec]
            exact ⟨_, rfl, hle⟩

lemma retryRpcAux_zero_none (env : Nat → RpcStep) (intr : Nat → Bool)
    (hrej : ∀ k, 1 ≤ k → RejectedAt env k) (hintr : ∀ k, intr k = false) :
    ∀ fuel count, 1 ≤ count → retryRpcAux env intr 0 count fuel = none := by
  intro fuel
  induction fuel with
  | zero => intro count hc; rfl
  | succ fuel ih =>
    intro count hc
    obtain ⟨b, hcall, hbok⟩ := hrej count hc
    rw [retryRpcAux, hcall]
    simp only
    rw [if_neg (by simp [hbok]), if_neg (by omega), if_neg (by simp [hintr count]),
      ih (count + 1) (by omega)]

lemma wait_bootAux_first_ok (env : Nat → RpcStep) (rpcDur : Nat → Nat) (intr : Nat → Bool)
    (limit now i : Nat) (a : ApiOk) (hlt : now < limit)
    (ha : rpcCall (env i) = Except.ok (Except.ok a)) :
    wait_bootAux env rpcDur intr limit now i = ⟨true, [now]⟩ := by
  rw [wait_bootAux, dif_pos hlt, ha]

lemma wait_bootAux_intr (env : Nat → RpcStep) (rpcDur : Nat → Nat) (intr : Nat → Bool)
    (limit now i : Nat) (hlt : now < limit)
    (hn : ∀ a, rpcCall (env i) ≠ Except.ok (Except.ok a)) (hi : intr i = true) :
    wait_bootAux env rpcDur intr limit now i = ⟨false, [now]⟩ := by
  rw [wait_bootAux, dif_pos hlt]
  cases hcall : rpcCall (env i) with
  | error e => simp [hi]
  | ok r =>
    cases r with
    | error b => simp [hi]
    | ok a => exact absurd hcall (hn a)

lemma wait_bootAux_false (env : Nat → RpcStep) (rpcDur : Nat → Nat) (intr : Nat → Bool)
    (hok : ∀ k a, rpcCall (env k) ≠ Except.ok (Except.ok a)) :
    ∀ m limit now i, limit - now ≤ m →
      (wait_bootAux env rpcDur intr limit now i).result = false := by
  intro m
  induction m with
  | zero =>
    intro limit now i hm
    rw [wait_bootAux, dif_neg (by omega)]
  | succ m ih =>
    intro limit now i hm
    rw [wait_bootAux]
    by_cases hlt : now < limit
    · rw [dif_pos hlt]
      cases hcall : rpcCall (env i) with
      | error e =>
        by_cases hi : intr i
        · simp [hi]
        · simp only [hi, if_false, Bool.false_eq_true]
          exact ih limit (now + rpcDur i + 100) (i + 1) (by omega)
      | ok r =>
        cases r with
        | error b =>
          by_cases hi : intr i
          · simp [hi]
          · simp only [hi, if_false, Bool.false_eq_true]
            exact ih limit (now + rpcDur i + 100) (i + 1) (by omega)
        | ok a => exact absurd hcall (hok i a)
    · rw [dif_neg hlt]

lemma wait_bootAux_head (env : Nat → RpcStep) (rpcDur : Nat → Nat) (intr : Nat → Bool)
    (limit now i : Nat) :
    (wait_bootAux env rpcDur intr limit now i).pollTimes = [] ∨
    ∃ rest, (wait_bootAux env rpcDur intr limit now i).pollTimes = now :: rest := by
  rw [wait_bootAux]
  by_cases hlt : now < limit
  · rw [dif_pos hlt]
    cases rpcCall (env i) with
    | error e =>
      by_cases hi : intr i
      · right; exact ⟨[], by simp [hi]⟩
      · right
        refine ⟨(wait_bootAux env rpcDur intr limit (now + rpcDur i + 100) (i + 1)).pollTimes, ?_⟩
        simp [hi]
    | ok r =>
      cases r with
      | error b =>
        by_cases hi : intr i
        · right; exact ⟨[], by simp [hi]⟩
        · right
          refine ⟨(wait_bootAux env rpcDur intr limit (now + rpcDur i + 100) (i + 1)).pollTimes, ?_⟩
          simp [hi]
      | ok a => right; exact ⟨[], rfl⟩
  · rw [dif_neg hlt]; left; rfl

lemma wait_bootAux_chain (env : Nat → RpcStep) (rpcDur : Nat → Nat) (intr : Nat → Bool) :
    ∀ m limit now i, limit - now ≤ m →
      List.Chain' (fun a b => a + 100 ≤ b)
        (wait_bootAux env rpcDur intr limit now i).pollTimes := by
  intro m
  induction m with
  | zero =>
    intro limit now i hm
    rw [wait_bootAux, dif_neg (by omega)]
    exact List.chain'_nil
  | succ m ih =>
    intro limit now i hm
    rw [wait_bootAux]
    by_cases hlt : now < limit
    · rw [dif_pos hlt]
      have hnext : List.Chain' (fun a b => a + 100 ≤ b)
          (now :: (wait_bootAux env rpcDur intr limit (now + rpcDur i + 100) (i + 1)).pollTimes) := by
        apply List.chain'_cons'.2
        constructor
        · intro y hy
          rcases wait_bootAux_head env rpcDur intr limit (now + rpcDur i + 100) (i + 1) with
            hemp | ⟨rest, hcons⟩
          · rw [hemp] at hy; simp at hy
          · rw [hcons] at hy
            simp only [List.head?_cons, Option.mem_def, Option.some.injEq] at hy
            omega
        · exact ih limit (now + rpcDur i + 100) (i + 1) (by omega)
      cases rpcCall (env i) with
      | error e =>
        by_cases hi : intr i
        · simp [hi]
        · simpa [hi] using hnext
      | ok r =>
        cases r with
        | error b =>
          by_cases hi : intr i
          · simp [hi]
          · simpa [hi] using hnext
        | ok a => simp
    · rw [dif_neg hlt]
      exact List.chain'_nil

lemma wait_bootAux_lt (env : Nat → RpcStep) (rpcDur : Nat → Nat) (intr : Nat → Bool) :
    ∀ m limit now i, limit - now ≤ m →
      ∀ t ∈ (wait_bootAux env rpcDur intr limit now i).pollTimes, t < limit := by
  intro m
  induction m with
  | zero =>
    intro limit now i hm
    rw [wait_bootAux, dif_neg (by omega)]
    intro t ht; simp at ht
  | succ m ih =>
    intro limit now i hm
    rw [wait_bootAux]
    by_cases hlt : now < limit
    · rw [dif_pos hlt]
      cases rpcCall (env i) with
      | error e =>
        by_cases hi : intr i
        · simp only [hi, if_true]
          intro t ht; simp at ht; omega
        · simp only [hi, if_false, Bool.false_eq_true]
          intro t ht
          simp only [List.mem_cons] at ht
          rcases ht with ht | ht
          · omega
          · exact ih limit (now + rpcDur i + 100) (i + 1) (by omega) t ht
      | ok r =>
        cases r with
        | error b =>
          by_cases hi : intr i
          · simp only [hi, if_true]
            intro t ht; simp at ht; omega
          · simp only [hi, if_false, Bool.false_eq_true]
            intro t ht
            simp only [List.mem_cons] at ht
            rcases ht with ht | ht
            · omega
            · exact ih limit (now + rpcDur i + 100) (i + 1) (by omega) t ht
        | ok a =>
          intro t ht; simp at ht; omega
    · rw [dif_neg hlt]
      intro t ht; simp at ht

lemma retry_exhausts (env : Nat → RpcStep) (intr : Nat → Bool) (N fuel : Nat)
    (hN : 1 ≤ N) (hf : N ≤ fuel)
    (hrej : ∀ k, 1 ≤ k → k ≤ N → RejectedAt env k)
    (hintr : ∀ k, intr k = false) :
    ∃ a out, rpcCall (env N) = Except.ok a ∧ Except.is_ok a = false ∧
      retryRpcAux env intr N 1 fuel = some out ∧
      out.result = Except.ok a ∧ out.attempts = N ∧ out.exit = ExitReason.exhausted := by
  obtain ⟨out, heq, hle⟩ := retryRpcAux_terminates env intr N fuel 1 le_rfl hN (by omega)
  obtain ⟨h1, _, _, ht, hokc, hexc, hic⟩ := retryRpcAux_invariant env intr N fuel 1 out le_rfl heq
  cases hex : out.exit with
  | appSuccess =>
    obtain ⟨_, a, ha, haok, _⟩ := hokc hex
    obtain ⟨b, hb, hbok⟩ := hrej out.attempts h1 hle
    rw [ha] at hb
    injection hb with hb
    rw [hb] at haok
    rw [haok] at hbok
    exact absurd hbok (by simp)
  | transportError =>
    obtain ⟨_, e, he, _⟩ := ht hex
    obtain ⟨b, hb, hbok⟩ := hrej out.attempts h1 hle
    rw [he] at hb
    exact absurd hb (by simp)
  | interrupted =>
    obtain ⟨_, _, hI, _⟩ := hic hex
    rw [hintr out.attempts] at hI
    exact absurd hI (by simp)
  | exhausted =>
    obtain ⟨_, hA, a, ha, haok, hres⟩ := hexc hex
    rw [hA] at ha
    exact ⟨a, out, ha, haok, heq, hres, hA, hex⟩

/-- Sample enclave handle (boot timeout 150ms, retry count 3) for witnesses. -/
def sampleEnclave : P11neEnclave := ⟨3, 4, 150, 10000, 3⟩

/-- Sample enclave handle with `attestation_retry_count = 0`. -/
def sampleEnclaveZero : P11neEnclave := ⟨3, 4, 150, 10000, 0⟩

/-- Environment whose every rpc call yields an application-level rejection. -/
def rejectEnv : Nat → RpcStep := fun _ => RpcStep.recvOk (Except.error 7)

/-- Environment whose every rpc call yields an application-level acceptance. -/
def acceptEnv : Nat → RpcStep := fun _ => RpcStep.recvOk (Except.ok 5)

/-- Environment whose every rpc call fails to connect. -/
def failEnv : Nat → RpcStep := fun _ => RpcStep.connectFail 3

/-- No user interrupt is ever delivered. -/
def noIntr : Nat → Bool := fun _ => false

/-- A user interrupt is delivered during every sleep. -/
def allIntr : Nat → Bool := fun _ => true

/-- Zero-duration rpc calls, for the boot-poll clock. -/
def zeroDur : Nat → Nat := fun _ => 0

/-- Request-indexed environment whose every response is a rejection. -/
def rejectRpcEnv : RpcEnv := fun _ _ => RpcStep.recvOk (Except.error 7)

/-- Request-indexed environment whose every response is an acceptance. -/
def acceptRpcEnv : RpcEnv := fun _ _ => RpcStep.recvOk (Except.ok 5)

/-- Claim C2: with `attestation_retry_count = N ≥ 1` (and at least `N`
iterations modelled), `retry_rpc` terminates having made at most `N` rpc
calls; when it exits by application-level success the successful attempt is
the last one made, every earlier attempt was a rejection, and exactly one
sleep was performed per earlier attempt (none after the success); and the
sleep performed after the k-th rejected attempt, the (k-1)-th entry of the
sleep list, lasts `100 * 2^(k-1)` milliseconds. -/
theorem C2_retry_bounds (self : P11neEnclave) (env : Nat → RpcStep) (intr : Nat → Bool)
    (fuel : Nat) (hN : 1 ≤ self.attestation_retry_count)
    (hf : self.attestation_retry_count ≤ fuel) :
    ∃ out, self.retry_rpc env intr fuel = some out ∧
      out.attempts ≤ self.attestation_retry_count ∧
      (out.exit = ExitReason.appSuccess →
        (∃ a, rpcCall (env out.attempts) = Except.ok a ∧ Except.is_ok a = true ∧
          out.result = Except.ok a) ∧
        (∀ j, 1 ≤ j → j < out.attempts → RejectedAt env j) ∧
        out.sleeps.length = out.attempts - 1) ∧
      (∀ i, (h : i < out.sleeps.length) → out.sleeps.get ⟨i, h⟩ = 100 * 2 ^ i) := by
  obtain ⟨out, heq, hle⟩ :=
    retryRpcAux_terminates env intr self.attestation_retry_count fuel 1 le_rfl hN (by omega)
  obtain ⟨h1, hrej, hsl, _, hokc, _, _⟩ :=
    retryRpcAux_invariant env intr self.attestation_retry_count fuel 1 out le_rfl heq
  refine ⟨out, heq, hle, ?_, ?_⟩
  · intro hx
    obtain ⟨hlen, ha⟩ := hokc hx
    exact ⟨ha, fun j hj hj2 => (hrej j hj hj2).1, hlen⟩
  · intro i h
    have hg := hsl i h
    simpa using hg

/-- Witness for C2 at a concrete input: retry count 3, first attempt accepted. -/
theorem C2_retry_bounds_witness :
    1 ≤ sampleEnclave.attestation_retry_count ∧
    sampleEnclave.attestation_retry_count ≤ 3 ∧
    ∃ out, sampleEnclave.retry_rpc acceptEnv noIntr 3 = some out ∧
      out.attempts ≤ sampleEnclave.attestation_retry_count ∧
      (out.exit = ExitReason.appSuccess →
        (∃ a, rpcCall (acceptEnv out.attempts) = Except.ok a ∧ Except.is_ok a = true ∧
          out.result = Except.ok a) ∧
        (∀ j, 1 ≤ j → j < out.attempts → RejectedAt acceptEnv j) ∧
        out.sleeps.length = out.attempts - 1) ∧
      (∀ i, (h : i < out.sleeps.length) → out.sleeps.get ⟨i, h⟩ = 100 * 2 ^ i) :=
  ⟨by decide, by decide, C2_retry_bounds sampleEnclave acceptEnv noIntr 3 (by decide) (by decide)⟩

/-- Claim C3: a transport-level failure of any attempt ends the run at that
attempt with the error returned unchanged, no sleep after the failing attempt
(every recorded sleep belongs to an earlier rejected attempt), and no further
attempts; in particular a transport failure on the first attempt yields
exactly one attempt, no sleep, and the untouched error. -/
theorem C3_transport_abort (self : P11neEnclave) (env : Nat → RpcStep) (intr : Nat → Bool) :
    (∀ fuel out e, self.retry_rpc env intr fuel = some out →
      out.result = Except.error e →
      out.exit = ExitReason.transportError ∧
      rpcCall (env out.attempts) = Except.error e ∧
      out.sleeps.length = out.attempts - 1 ∧
      (∀ j, 1 ≤ j → j < out.attempts → RejectedAt env j ∧ intr j = false)) ∧
    (∀ fuel e, rpcCall (env 1) = Except.error e →
      self.retry_rpc env intr (fuel + 1) =
        some ⟨Except.error e, 1, [], ExitReason.transportError⟩) := by
  constructor
  · intro fuel out e heq hres
    obtain ⟨h1, hrej, _, ht, hokc, hexc, hic⟩ :=
      retryRpcAux_invariant env intr self.attestation_retry_count fuel 1 out le_rfl heq
    cases hex : out.exit with
    | appSuccess =>
      obtain ⟨_, a, _, _, hra⟩ := hokc hex
      rw [hres] at hra
      exact absurd hra (by simp)
    | exhausted =>
      obtain ⟨_, _, a, _, _, hra⟩ := hexc hex
      rw [hres] at hra
      exact absurd hra (by simp)
    | interrupted =>
      obtain ⟨_, _, _, a, _, _, hra⟩ := hic hex
      rw [hres] at hra
      exact absurd hra (by simp)
    | transportError =>
      obtain ⟨hlen, e₀, he₀, hre₀⟩ := ht hex
      rw [hres] at hre₀
      injection hre₀ with hre₀
      subst hre₀
      exact ⟨rfl, he₀, hlen, fun j hj hj2 =>
        ⟨(hrej j hj hj2).1, (hrej j hj hj2).2.1⟩⟩
  · intro fuel e hcall
    rw [P11neEnclave.retry_rpc, retryRpcAux, hcall]

/-- Witness for C3 at a concrete input: connect failure on the first attempt. -/
theorem C3_transport_abort_witness :
    (sampleEnclave.retry_rpc failEnv noIntr 1 =
      some ⟨Except.error (Error.RpcConnectError 3), 1, [], ExitReason.transportError⟩) ∧
    (rpcCall (failEnv 1) = Except.error (Error.RpcConnectError 3)) ∧
    (ExitReason.transportError = ExitReason.transportError ∧
      rpcCall (failEnv 1) = Except.error (Error.RpcConnectError 3) ∧
      ([] : List Nat).length = 1 - 1 ∧
      (∀ j, 1 ≤ j → j < 1 → RejectedAt failEnv j ∧ noIntr j = false)) ∧
    (sampleEnclave.retry_rpc failEnv noIntr (0 + 1) =
      some ⟨Except.error (Error.RpcConnectError 3), 1, [], ExitReason.transportError⟩) :=
  ⟨by decide, rfl,
    (C3_transport_abort sampleEnclave failEnv noIntr).1 1
      ⟨Except.error (Error.RpcConnectError 3), 1, [], ExitReason.transportError⟩
      (Error.RpcConnectError 3) (by decide) rfl,
    (C3_transport_abort sampleEnclave failEnv noIntr).2 0 (Error.RpcConnectError 3) rfl⟩

/-- Claim C4: with `attestation_retry_count = N ≥ 1`, if all of the first `N`
attempts receive responses that are application-level rejections (and no
interrupt arrives), `retry_rpc` returns `Ok` carrying exactly the response of
the `N`-th attempt, by the retry-exhaustion exit — not an error. -/
theorem C4_exhaustion (self : P11neEnclave) (env : Nat → RpcStep) (intr : Nat → Bool)
    (fuel : Nat) (hN : 1 ≤ self.attestation_retry_count)
    (hf : self.attestation_retry_count ≤ fuel)
    (hrej : ∀ k, 1 ≤ k → k ≤ self.attestation_retry_count → RejectedAt env k)
    (hintr : ∀ k, intr k = false) :
    ∃ a out, rpcCall (env self.attestation_retry_count) = Except.ok a ∧
      Except.is_ok a = false ∧
      self.retry_rpc env intr fuel = some out ∧
      out.result = Except.ok a ∧ out.attempts = self.attestation_retry_count ∧
      out.exit = ExitReason.exhausted :=
  retry_exhausts env intr self.attestation_retry_count fuel hN hf hrej hintr

/-- Witness for C4 at a concrete input: retry count 3, every attempt rejected. -/
theorem C4_exhaustion_witness :
    1 ≤ sampleEnclave.attestation_retry_count ∧
    sampleEnclave.attestation_retry_count ≤ 3 ∧
    (∀ k, noIntr k = false) ∧
    ∃ a out, rpcCall (rejectEnv sampleEnclave.attestation_retry_count) = Except.ok a ∧
      Except.is_ok a = false ∧
      sampleEnclave.retry_rpc rejectEnv noIntr 3 = some out ∧
      out.result = Except.ok a ∧ out.attempts = sampleEnclave.attestation_retry_count ∧
      out.exit = ExitReason.exhausted :=
  ⟨by decide, by decide, fun k => rfl,
    C4_exhaustion sampleEnclave rejectEnv noIntr 3 (by decide) (by decide)
      (fun k h1 h2 => ⟨Except.error 7, rfl, rfl⟩) (fun k => rfl)⟩

/-- Claim C5: a user-exit interrupt delivered during a sleep makes the
enclosing loop return immediately.  For `wait_boot`: at any iteration whose
poll got no accepted response, an interrupted poll sleep ends the whole wait
with `false` and no further polls; in particular from the first poll.  For
`retry_rpc`: at any attempt whose response was a rejection (and which is not
the final allowed attempt), an interrupted backoff sleep makes the loop
return `Ok` with that most recent rejected response, with no further
attempts; in particular from the first attempt. -/
theorem C5_interrupt :
    (∀ (env : Nat → RpcStep) (rpcDur : Nat → Nat) (intr : Nat → Bool) (limit now i : Nat),
      now < limit →
      (∀ a, rpcCall (env i) ≠ Except.ok (Except.ok a)) → intr i = true →
      wait_bootAux env rpcDur intr limit now i = ⟨false, [now]⟩) ∧
    (∀ (self : P11neEnclave) (env : RpcEnv) (rpcDur : Nat → Nat) (intr : Nat → Bool),
      0 < self.boot_timeout →
      (∀ a, rpcCall (env ApiRequest.DescribeDevice 0) ≠ Except.ok (Except.ok a)) →
      intr 0 = true →
      self.wait_boot env rpcDur intr = ⟨false, [0]⟩) ∧
    (∀ (self : P11neEnclave) (env : Nat → RpcStep) (intr : Nat → Bool)
        (fuel count : Nat) (res : ApiResponse),
      rpcCall (env count) = Except.ok res → Except.is_ok res = false →
      count ≠ self.attestation_retry_count → intr count = true →
      retryRpcAux env intr self.attestation_retry_count count (fuel + 1) =
        some ⟨Except.ok res, count, [(1 <<< (count - 1)) * 100], ExitReason.interrupted⟩) ∧
    (∀ (self : P11neEnclave) (env : Nat → RpcStep) (intr : Nat → Bool)
        (fuel : Nat) (res : ApiResponse),
      rpcCall (env 1) = Except.ok res → Except.is_ok res = false →
      1 ≠ self.attestation_retry_count → intr 1 = true →
      self.retry_rpc env intr (fuel + 1) =
        some ⟨Except.ok res, 1, [100], ExitReason.interrupted⟩) := by
  have hcore : ∀ (self : P11neEnclave) (env : Nat → RpcStep) (intr : Nat → Bool)
      (fuel count : Nat) (res : ApiResponse),
      rpcCall (env count) = Except.ok res → Except.is_ok res = false →
      count ≠ self.attestation_retry_count → intr count = true →
      retryRpcAux env intr self.attestation_retry_count count (fuel + 1) =
        some ⟨Except.ok res, count, [(1 <<< (count - 1)) * 100], ExitReason.interrupted⟩ := by
    intro self env intr fuel count res hcall hok hne hi
    rw [retryRpcAux, hcall]
    simp only
    rw [if_neg (by simp [hok]), if_neg hne, if_pos hi]
  refine ⟨?_, ?_, hcore, ?_⟩
  · intro env rpcDur intr limit now i hlt hn hi
    exact wait_bootAux_intr env rpcDur intr limit now i hlt hn hi
  · intro self env rpcDur intr hlt hn hi
    rw [P11neEnclave.wait_boot]
    exact wait_bootAux_intr _ rpcDur intr self.boot_timeout 0 0 hlt hn hi
  · intro self env intr fuel res hcall hok hne hi
    have h := hcore self env intr fuel 1 res hcall hok hne hi
    rw [P11neEnclave.retry_rpc]
    simpa using h

/-- Witness for C5 at concrete inputs: interrupts during the first boot-poll
sleep and during the first retry backoff sleep. -/
theorem C5_interrupt_witness :
    (0 < sampleEnclave.boot_timeout) ∧
    (allIntr 0 = true) ∧
    (sampleEnclave.wait_boot rejectRpcEnv zeroDur allIntr = ⟨false, [0]⟩) ∧
    (sampleEnclave.retry_rpc rejectEnv allIntr (0 + 1) =
      some ⟨Except.ok (Except.error 7), 1, [100], ExitReason.interrupted⟩) :=
  ⟨by decide, rfl,
    (C5_interrupt).2.1 sampleEnclave rejectRpcEnv zeroDur allIntr (by decide)
      (fun a => by simp [rejectRpcEnv, rpcCall]) rfl,
    (C5_interrupt).2.2.2 sampleEnclave rejectEnv allIntr 0 (Except.error 7) rfl rfl
      (by decide) rfl⟩

/-- Claim C10: with `attestation_retry_count = 0` the retry-exhaustion exit
(`count == attestation_retry_count`) can never fire, because `count` starts at
1 and only grows: any terminating run ended by application-level success, a
transport error, or an interrupt; and if every attempt is rejected and no
interrupt arrives, the loop is still running after any number of modelled
iterations. -/
theorem C10_zero_retry_unbounded :
    (∀ (self : P11neEnclave) (env : Nat → RpcStep) (intr : Nat → Bool) (fuel : Nat)
        (out : RetryOut),
      self.attestation_retry_count = 0 →
      self.retry_rpc env intr fuel = some out →
      out.exit ≠ ExitReason.exhausted ∧
      (out.exit = ExitReason.appSuccess ∨ out.exit = ExitReason.transportError ∨
        out.exit = ExitReason.interrupted)) ∧
    (∀ (self : P11neEnclave) (env : Nat → RpcStep) (intr : Nat → Bool) (fuel : Nat),
      self.attestation_retry_count = 0 →
      (∀ k, 1 ≤ k → RejectedAt env k) → (∀ k, intr k = false) →
      self.retry_rpc env intr fuel = none) := by
  constructor
  · intro self env intr fuel out h0 heq
    rw [P11neEnclave.retry_rpc, h0] at heq
    obtain ⟨h1, _, _, _, _, hexc, _⟩ := retryRpcAux_invariant env intr 0 fuel 1 out le_rfl heq
    have hne : out.exit ≠ ExitReason.exhausted := by
      intro hx
      obtain ⟨_, hA, _⟩ := hexc hx
      omega
    refine ⟨hne, ?_⟩
    cases hx : out.exit with
    | appSuccess => exact Or.inl rfl
    | transportError => exact Or.inr (Or.inl rfl)
    | interrupted => exact Or.inr (Or.inr rfl)
    | exhausted => exact absurd hx hne
  · intro self env intr fuel h0 hrej hintr
    rw [P11neEnclave.retry_rpc, h0]
    exact retryRpcAux_zero_none env intr hrej hintr fuel 1 le_rfl

/-- Witness for C10 at concrete inputs: a zero retry count with a first-attempt
acceptance (terminating run, success exit) and with constant rejections (the
loop outlives 25 modelled iterations). -/
theorem C10_zero_retry_unbounded_witness :
    (sampleEnclaveZero.attestation_retry_count = 0) ∧
    (sampleEnclaveZero.retry_rpc acceptEnv noIntr 1 =
      some ⟨Except.ok (Except.ok 5), 1, [], ExitReason.appSuccess⟩) ∧
    ((⟨Except.ok (Except.ok 5), 1, [], ExitReason.appSuccess⟩ : RetryOut).exit ≠
        ExitReason.exhausted ∧
      ((⟨Except.ok (Except.ok 5), 1, [], ExitReason.appSuccess⟩ : RetryOut).exit =
          ExitReason.appSuccess ∨
        (⟨Except.ok (Except.ok 5), 1, [], ExitReason.appSuccess⟩ : RetryOut).exit =
          ExitReason.transportError ∨
        (⟨Except.ok (Except.ok 5), 1, [], ExitReason.appSuccess⟩ : RetryOut).exit =
          ExitReason.interrupted)) ∧
    (sampleEnclaveZero.retry_rpc rejectEnv noIntr 25 = none) :=
  ⟨rfl, by decide,
    (C10_zero_retry_unbounded).1 sampleEnclaveZero acceptEnv noIntr 1
      ⟨Except.ok (Except.ok 5), 1, [], ExitReason.appSuccess⟩ rfl (by decide),
    (C10_zero_retry_unbounded).2 sampleEnclaveZero rejectEnv noIntr 25 rfl
      (fun k hk => ⟨Except.error 7, rfl, rfl⟩) (fun k => rfl)⟩

/-- Sample token label for witnesses. -/
def sampleLabel : String := "tok"

/-- Sample token pin for witnesses. -/
def samplePin : String := "1234"

/-- Sample `defs.rs` constants for witnesses (arbitrary values; the claims do
not depend on them). -/
def sampleDefs : Defs := ⟨"/sample/image.eif", "p11ne-sample", 17, 150, 10013, 3⟩

/-- Sample configuration with every optional field unset. -/
def sampleCfg : EnclaveConfig := ⟨none, 2, 256, none, none, none, none⟩

/-- Sample bootstrap environment where every collaborator call succeeds. -/
def sampleBootEnv : BootstrapEnv :=
  ⟨fun _ _ _ => Except.ok ⟨5, 42⟩, fun _ _ => Except.ok 9, fun _ => Except.ok (true, some 0)⟩

/-- Time of the j-th poll of the `wait_boot` loop when the loop is entered at
time `now` on poll index `i`: each iteration adds its rpc duration and the
100ms poll sleep. -/
def pollClock (rpcDur : Nat → Nat) (i now : Nat) : Nat → Nat
  | 0 => now
  | j + 1 => pollClock rpcDur i now j + rpcDur (i + j) + 100

lemma pollClock_shift (rpcDur : Nat → Nat) (i now : Nat) :
    ∀ j, pollClock rpcDur (i + 1) (now + rpcDur i + 100) j = pollClock rpcDur i now (j + 1) := by
  intro j
  induction j with
  | zero => rfl
  | succ j ihj =>
    show pollClock rpcDur (i + 1) (now + rpcDur i + 100) j + rpcDur (i + 1 + j) + 100 =
      pollClock rpcDur i now (j + 1) + rpcDur (i + (j + 1)) + 100
    rw [ihj]
    have he : i + 1 + j = i + (j + 1) := by omega
    rw [he]

lemma wait_bootAux_first_accept (env : Nat → RpcStep) (rpcDur : Nat → Nat)
    (intr : Nat → Bool) (a : ApiOk) :
    ∀ k now i limit,
      (∀ j, j < k →
        (∀ b, rpcCall (env (i + j)) ≠ Except.ok (Except.ok b)) ∧ intr (i + j) = false) →
      (∀ j, j ≤ k → pollClock rpcDur i now j < limit) →
      rpcCall (env (i + k)) = Except.ok (Except.ok a) →
      (wait_bootAux env rpcDur intr limit now i).result = true ∧
      (wait_bootAux env rpcDur intr limit now i).pollTimes.length = k + 1 := by
  intro k
  induction k with
  | zero =>
    intro now i limit hrej hclock hacc
    have hlt : now < limit := hclock 0 (le_refl 0)
    rw [wait_bootAux_first_ok env rpcDur intr limit now i a hlt hacc]
    exact ⟨rfl, rfl⟩
  | succ k ihk =>
    intro now i limit hrej hclock hacc
    have hlt : now < limit := hclock 0 (by omega)
    obtain ⟨hnoacc, hni⟩ := hrej 0 (by omega)
    simp only [Nat.add_zero] at hnoacc hni
    have hstep := ihk (now + rpcDur i + 100) (i + 1) limit
      (fun j hj => by
        have h2 := hrej (j + 1) (by omega)
        have he : i + 1 + j = i + (j + 1) := by omega
        rw [he]
        exact h2)
      (fun j hj => by
        rw [pollClock_shift]
        exact hclock (j + 1) (by omega))
      (by
        have he : i + 1 + k = i + (k + 1) := by omega
        rw [he]
        exact hacc)
    rw [wait_bootAux, dif_pos hlt]
    cases hcall : rpcCall (env i) with
    | error e =>
      simp only [hni, Bool.false_eq_true, if_false]
      exact ⟨hstep.1, by simp [hstep.2]⟩
    | ok r =>
      cases r with
      | error b =>
        simp only [hni, Bool.false_eq_true, if_false]
        exact ⟨hstep.1, by simp [hstep.2]⟩
      | ok b => exact absurd hcall (hnoacc b)

lemma wait_bootAux_false_clock (env : Nat → RpcStep) (rpcDur : Nat → Nat) (intr : Nat → Bool) :
    ∀ m limit now i, limit - now ≤ m →
      (∀ j, pollClock rpcDur i now j < limit →
        ∀ b, rpcCall (env (i + j)) ≠ Except.ok (Except.ok b)) →
      (wait_bootAux env rpcDur intr limit now i).result = false := by
  intro m
  induction m with
  | zero =>
    intro limit now i hm hno
    rw [wait_bootAux, dif_neg (by omega)]
  | succ m ih =>
    intro limit now i hm hno
    rw [wait_bootAux]
    by_cases hlt : now < limit
    · rw [dif_pos hlt]
      have hnoacc := hno 0 hlt
      simp only [Nat.add_zero] at hnoacc
      have hnext : (wait_bootAux env rpcDur intr limit (now + rpcDur i + 100) (i + 1)).result =
          false := by
        apply ih limit (now + rpcDur i + 100) (i + 1) (by omega)
        intro j hj b
        rw [pollClock_shift] at hj
        have h2 := hno (j + 1) hj b
        have he : i + 1 + j = i + (j + 1) := by omega
        rw [he]
        exact h2
      cases hcall : rpcCall (env i) with
      | error e =>
        by_cases hi : intr i
        · simp [hi]
        · simp only [hi, if_false, Bool.false_eq_true]
          exact hnext
      | ok r =>
        cases r with
        | error b =>
          by_cases hi : intr i
          · simp [hi]
          · simp only [hi, if_false, Bool.false_eq_true]
            exact hnext
        | ok a => exact absurd hcall (hnoacc a)
    · rw [dif_neg hlt]

/-- Environment whose first DescribeDevice poll is rejected and whose later
polls are accepted. -/
def mixedRpcEnv : RpcEnv := fun _ i =>
  if i = 0 then RpcStep.recvOk (Except.error 7) else RpcStep.recvOk (Except.ok 5)

/-- Claim C1, as stated, fails on the code: with a 150ms boot timeout the very
first DescribeDevice poll receives a response — an application-level rejection
— yet `wait_boot` does not return `true` on that poll; it keeps polling and,
with every response a rejection, returns `false`. -/
theorem C1_boot_poll_counterexample :
    rpcCall (rejectRpcEnv ApiRequest.DescribeDevice 0) = Except.ok (Except.error 7) ∧
    (sampleEnclave.wait_boot rejectRpcEnv zeroDur noIntr).result = false := by
  constructor
  · rfl
  · rw [P11neEnclave.wait_boot]
    exact wait_bootAux_false (fun i => rejectRpcEnv ApiRequest.DescribeDevice i) zeroDur noIntr
      (fun k a => by simp [rejectRpcEnv, rpcCall]) sampleEnclave.boot_timeout
      sampleEnclave.boot_timeout 0 0 (by omega)

/-- Claim C1 (amended): `wait_boot` declares boot success only on a poll whose
DescribeDevice rpc yields a response indicating application-level acceptance
(the `Ok(Ok(_))` pattern).  If the first accepted response arrives at poll
`k` — every earlier poll getting a transport failure or an application-level
rejection and no interrupt, each of those polls happening before the deadline
— the wait returns `true` right at poll `k`, having made exactly `k + 1`
polls; if no poll occurring before `boot_timeout` elapses is accepted, it
returns `false`; every poll happens before the deadline and consecutive polls
are separated by the 100ms poll sleep. -/
theorem C1_boot_poll_amended (self : P11neEnclave) (env : RpcEnv) (rpcDur : Nat → Nat)
    (intr : Nat → Bool) :
    (∀ k a,
      (∀ j, j < k →
        (∀ b, rpcCall (env ApiRequest.DescribeDevice j) ≠ Except.ok (Except.ok b)) ∧
        intr j = false) →
      (∀ j, j ≤ k → pollClock rpcDur 0 0 j < self.boot_timeout) →
      rpcCall (env ApiRequest.DescribeDevice k) = Except.ok (Except.ok a) →
      (self.wait_boot env rpcDur intr).result = true ∧
      (self.wait_boot env rpcDur intr).pollTimes.length = k + 1) ∧
    ((∀ j, pollClock rpcDur 0 0 j < self.boot_timeout →
      ∀ b, rpcCall (env ApiRequest.DescribeDevice j) ≠ Except.ok (Except.ok b)) →
      (self.wait_boot env rpcDur intr).result = false) ∧
    (∀ t ∈ (self.wait_boot env rpcDur intr).pollTimes, t < self.boot_timeout) ∧
    List.Chain' (fun a b => a + 100 ≤ b) (self.wait_boot env rpcDur intr).pollTimes := by
  refine ⟨?_, ?_, ?_, ?_⟩
  · intro k a hrej hclock hacc
    rw [P11neEnclave.wait_boot]
    apply wait_bootAux_first_accept (fun i => env ApiRequest.DescribeDevice i) rpcDur intr
      a k 0 0 self.boot_timeout
    · intro j hj
      simp only [Nat.zero_add]
      exact hrej j hj
    · intro j hj
      exact hclock j hj
    · simp only [Nat.zero_add]
      exact hacc
  · intro hok
    rw [P11neEnclave.wait_boot]
    apply wait_bootAux_false_clock (fun i => env ApiRequest.DescribeDevice i) rpcDur intr
      self.boot_timeout self.boot_timeout 0 0 (by omega)
    intro j hj b
    simp only [Nat.zero_add]
    exact hok j hj b
  · rw [P11neEnclave.wait_boot]
    exact wait_bootAux_lt (fun i => env ApiRequest.DescribeDevice i) rpcDur intr
      self.boot_timeout self.boot_timeout 0 0 (by omega)
  · rw [P11neEnclave.wait_boot]
    exact wait_bootAux_chain (fun i => env ApiRequest.DescribeDevice i) rpcDur intr
      self.boot_timeout self.boot_timeout 0 0 (by omega)

/-- Witness for the amended C1 at concrete inputs: a rejection at poll 0
followed by an acceptance at poll 1 gives `true` after exactly two polls,
while constant rejections give `false`. -/
theorem C1_boot_poll_amended_witness :
    (rpcCall (mixedRpcEnv ApiRequest.DescribeDevice 0) = Except.ok (Except.error 7)) ∧
    (rpcCall (mixedRpcEnv ApiRequest.DescribeDevice 1) = Except.ok (Except.ok 5)) ∧
    (pollClock zeroDur 0 0 1 < sampleEnclave.boot_timeout) ∧
    ((sampleEnclave.wait_boot mixedRpcEnv zeroDur noIntr).result = true ∧
      (sampleEnclave.wait_boot mixedRpcEnv zeroDur noIntr).pollTimes.length = 1 + 1) ∧
    ((sampleEnclave.wait_boot rejectRpcEnv zeroDur noIntr).result = false) :=
  ⟨rfl, rfl, by decide,
    (C1_boot_poll_amended sampleEnclave mixedRpcEnv zeroDur noIntr).1 1 5
      (fun j hj => by
        have hj0 : j = 0 := by omega
        subst hj0
        exact ⟨fun b => by simp [mixedRpcEnv, rpcCall], rfl⟩)
      (fun j hj => by
        have : j = 0 ∨ j = 1 := by omega
        rcases this with h | h <;> subst h <;> decide)
      rfl,
    (C1_boot_poll_amended sampleEnclave rejectRpcEnv zeroDur noIntr).2.1
      (fun j hj b => by simp [rejectRpcEnv, rpcCall])⟩

/-- Claim C6: the drop handler always attempts both actions — exactly one
SIGTERM to `pid` and exactly one deletion of the fixed module-file path —
whatever the outcome of either; the trace does not depend on the kill outcome
(a signal failure is swallowed silently), and a deletion failure produces
exactly one logged warning instead of escalating (the handler is total, so
neither failure ever surfaces). -/
theorem C6_teardown (defs : Defs) (self : P11neEnclave) (env : DropEnv) :
    (self.drop defs env).kills = [(self.pid, Signal.SIGTERM)] ∧
    (self.drop defs env).removes = [modulePath defs] ∧
    (∀ k1 k2 : Except Nat Unit,
      P11neEnclave.drop defs self ⟨k1, env.remove_file_res⟩ =
        P11neEnclave.drop defs self ⟨k2, env.remove_file_res⟩) ∧
    (self.drop defs env).warnings = (match env.remove_file_res with
      | Except.ok _ => 0
      | Except.error _ => 1) := by
  cases env with
  | mk kr rr =>
    cases kr <;> cases rr <;>
      refine ⟨rfl, rfl, ?_, rfl⟩ <;> (intro k1 k2; cases k1 <;> cases k2 <;> rfl)

/-- Claim C7: the retry policy wraps exactly `add_token`, `update_token` and
`refresh_token` — each is `retry_rpc` on its request — while `remove_token`
and `describe_token` issue a single rpc call, never sleep, and return the
response as-is; in particular `remove_token` receiving one application-level
rejection returns that rejection directly with zero retries and zero sleeps,
whereas under the same all-rejecting environment `add_token` with a retry
count `N ≥ 2` makes `N > 1` attempts. -/
theorem C7_retry_scope (self : P11neEnclave) (env : RpcEnv) (intr : Nat → Bool) (fuel : Nat) :
    (∀ token, self.add_token env intr fuel token =
      (self.retry_rpc (env (ApiRequest.AddToken token)) intr fuel).map RetryOut.toOp) ∧
    (∀ label pin token, self.update_token env intr fuel label pin token =
      (self.retry_rpc (env (ApiRequest.UpdateToken label pin token)) intr fuel).map
        RetryOut.toOp) ∧
    (∀ label pin ekey, self.refresh_token env intr fuel label pin ekey =
      (self.retry_rpc (env (ApiRequest.RefreshToken label pin ekey)) intr fuel).map
        RetryOut.toOp) ∧
    (∀ label pin, self.remove_token env label pin =
      ⟨rpcCall (env (ApiRequest.RemoveToken label pin) 1), 1, []⟩) ∧
    (∀ label pin, self.describe_token env label pin =
      ⟨rpcCall (env (ApiRequest.DescribeToken label pin) 1), 1, []⟩) ∧
    (∀ label pin b, rpcCall (env (ApiRequest.RemoveToken label pin) 1) = Except.ok b →
      Except.is_ok b = false →
      (self.remove_token env label pin).result = Except.ok b ∧
      (self.remove_token env label pin).rpc_calls = 1 ∧
      (self.remove_token env label pin).sleeps = []) ∧
    (2 ≤ self.attestation_retry_count → self.attestation_retry_count ≤ fuel →
      ∀ token,
        (∀ k, 1 ≤ k → k ≤ self.attestation_retry_count →
          RejectedAt (env (ApiRequest.AddToken token)) k) →
        (∀ k, intr k = false) →
        ∃ op, self.add_token env intr fuel token = some op ∧
          op.rpc_calls = self.attestation_retry_count ∧ 1 < op.rpc_calls) := by
  refine ⟨fun token => rfl, fun l p t => rfl, fun l p k => rfl, fun l p => rfl,
    fun l p => rfl, ?_, ?_⟩
  · intro l p b hb hbok
    exact ⟨hb, rfl, rfl⟩
  · intro hN2 hf token hrej hintr
    obtain ⟨a, out, ha, haok, heq, hres, hA, hex⟩ :=
      retry_exhausts (env (ApiRequest.AddToken token)) intr self.attestation_retry_count fuel
        (by omega) hf hrej hintr
    refine ⟨out.toOp, ?_, ?_, ?_⟩
    · show (retryRpcAux (env (ApiRequest.AddToken token)) intr
          self.attestation_retry_count 1 fuel).map RetryOut.toOp = some out.toOp
      rw [heq]
      rfl
    · show out.attempts = self.attestation_retry_count
      exact hA
    · show 1 < out.attempts
      omega

/-- Witness for C7 at concrete inputs: a rejected `remove_token` returns the
rejection with one call and no sleep, while `add_token` under constant
rejections exhausts all 3 attempts. -/
theorem C7_retry_scope_witness :
    (2 ≤ sampleEnclave.attestation_retry_count) ∧
    (rpcCall (rejectRpcEnv (ApiRequest.RemoveToken sampleLabel samplePin) 1) =
      Except.ok (Except.error 7)) ∧
    ((sampleEnclave.remove_token rejectRpcEnv sampleLabel samplePin).result =
        Except.ok (Except.error 7) ∧
      (sampleEnclave.remove_token rejectRpcEnv sampleLabel samplePin).rpc_calls = 1 ∧
      (sampleEnclave.remove_token rejectRpcEnv sampleLabel samplePin).sleeps = []) ∧
    (∃ op, sampleEnclave.add_token rejectRpcEnv noIntr 3 0 = some op ∧
      op.rpc_calls = sampleEnclave.attestation_retry_count ∧ 1 < op.rpc_calls) :=
  ⟨by decide, rfl,
    (C7_retry_scope sampleEnclave rejectRpcEnv noIntr 3).2.2.2.2.2.1 sampleLabel samplePin
      (Except.error 7) rfl rfl,
    (C7_retry_scope sampleEnclave rejectRpcEnv noIntr 3).2.2.2.2.2.2 (by decide) (by decide) 0
      (fun k h1 h2 => ⟨Except.error 7, rfl, rfl⟩) (fun k => rfl)⟩

/-- Claim C8: once the launcher succeeds, bootstrap opens the module file at
the fixed path with write+create+truncate options (any prior contents are
overwritten) and hands it exactly the two newline-terminated lines
`remote:vsock:cid=<cid>;port=<port>` and `module:<name>`, where the cid is
the launcher-returned channel id and the port is the configured bridge port
or its fixed default. -/
theorem C8_bridge_file (defs : Defs) (env : BootstrapEnv) (cfg : EnclaveConfig)
    (eri : EnclaveRunInfo)
    (hrun : env.run_enclave (cfg.image_path.getD defs.DEFAULT_EIF_PATH)
      cfg.cpu_count cfg.memory_mib = Except.ok eri) :
    (P11neEnclave.new defs env cfg).file_write_call =
      some (⟨true, true, true, modulePath defs⟩,
        "remote:vsock:cid=" ++ toString eri.enclave_cid ++ ";port=" ++
          toString (cfg.p11kit_port.getD defs.DEFAULT_P11KIT_PORT) ++
          "\nmodule:" ++ defs.P11_MODULE_NAME ++ "\n") := by
  simp only [P11neEnclave.new]
  rw [hrun]
  dsimp only
  cases env.file_write (modulePath defs)
      (moduleContents defs eri.enclave_cid (cfg.p11kit_port.getD defs.DEFAULT_P11KIT_PORT)) with
  | error e => rfl
  | ok w =>
    cases env.systemctl ["restart", "nitro-enclaves-vsock-proxy"] with
    | error e => rfl
    | ok sc =>
      cases sc with
      | mk success code => cases success <;> rfl

/-- Witness for C8 at concrete inputs. -/
theorem C8_bridge_file_witness :
    (sampleBootEnv.run_enclave (sampleCfg.image_path.getD sampleDefs.DEFAULT_EIF_PATH)
      sampleCfg.cpu_count sampleCfg.memory_mib = Except.ok ⟨5, 42⟩) ∧
    (P11neEnclave.new sampleDefs sampleBootEnv sampleCfg).file_write_call =
      some (⟨true, true, true, modulePath sampleDefs⟩,
        "remote:vsock:cid=" ++ toString (5 : Nat) ++ ";port=" ++ toString (17 : Nat) ++
          "\nmodule:" ++ sampleDefs.P11_MODULE_NAME ++ "\n") :=
  ⟨rfl, C8_bridge_file sampleDefs sampleBootEnv sampleCfg ⟨5, 42⟩ rfl⟩

/-- Claim C9: with every optional config field unset and every collaborator
call succeeding, bootstrap invokes the launcher with the fixed default image
path and constructs the handle with the fixed default rpc port, retry count
and boot timeout. -/
theorem C9_defaults (defs : Defs) (env : BootstrapEnv) (cfg : EnclaveConfig)
    (eri : EnclaveRunInfo) (w : Nat) (code : Option Int)
    (hip : cfg.image_path = none) (hpp : cfg.p11kit_port = none)
    (hrp : cfg.rpc_port = none) (hbt : cfg.boot_timeout_ms = none)
    (har : cfg.attestation_retry_count = none)
    (hrun : env.run_enclave defs.DEFAULT_EIF_PATH cfg.cpu_count cfg.memory_mib =
      Except.ok eri)
    (hw : env.file_write (modulePath defs)
      (moduleContents defs eri.enclave_cid defs.DEFAULT_P11KIT_PORT) = Except.ok w)
    (hs : env.systemctl ["restart", "nitro-enclaves-vsock-proxy"] =
      Except.ok (true, code)) :
    (P11neEnclave.new defs env cfg).run_enclave_args =
      (defs.DEFAULT_EIF_PATH, cfg.cpu_count, cfg.memory_mib) ∧
    (P11neEnclave.new defs env cfg).result =
      Except.ok ⟨as_u32 eri.enclave_cid, as_i32 eri.process_id,
        defs.DEFAULT_ENCLAVE_BOOT_TIMEOUT_MS, defs.DEFAULT_RPC_PORT,
        defs.DEFAULT_ATTESTATION_RETRY_COUNT⟩ := by
  simp only [P11neEnclave.new, hip, hpp, hrp, hbt, har, Option.getD_none]
  rw [hrun]
  dsimp only
  rw [hw]
  dsimp only
  rw [hs]
  exact ⟨rfl, rfl⟩

/-- Witness for C9 at concrete inputs. -/
theorem C9_defaults_witness :
    (sampleCfg.image_path = none) ∧ (sampleCfg.rpc_port = none) ∧
    (sampleCfg.boot_timeout_ms = none) ∧ (sampleCfg.attestation_retry_count = none) ∧
    (P11neEnclave.new sampleDefs sampleBootEnv sampleCfg).run_enclave_args =
      (sampleDefs.DEFAULT_EIF_PATH, sampleCfg.cpu_count, sampleCfg.memory_mib) ∧
    (P11neEnclave.new sampleDefs sampleBootEnv sampleCfg).result =
      Except.ok ⟨as_u32 5, as_i32 42, sampleDefs.DEFAULT_ENCLAVE_BOOT_TIMEOUT_MS,
        sampleDefs.DEFAULT_RPC_PORT, sampleDefs.DEFAULT_ATTESTATION_RETRY_COUNT⟩ :=
  ⟨rfl, rfl, rfl, rfl,
    (C9_defaults sampleDefs sampleBootEnv sampleCfg ⟨5, 42⟩ 9 (some 0)
      rfl rfl rfl rfl rfl rfl rfl rfl).1,
    (C9_defaults sampleDefs sampleBootEnv sampleCfg ⟨5, 42⟩ 9 (some 0)
      rfl rfl rfl rfl rfl rfl rfl rfl).2⟩

end VTokAgent
